import Mathlib

/-!
Shallow embedding of the gesture-recognition core of the MiHome control hub
(`src/gesture_recognition.py`): the gesture classifier, the hold-duration
debounce state machine (`GestureController._handle_gesture_logic`), the
left/right command resolution and callback dispatch
(`GestureController._execute_gesture`), the per-frame hand selection
(`GestureController.process_frame`), and the session start logic
(`GestureController.start`).  Times are modelled as rationals (the source
uses `time.time()` float seconds), the executed-gesture set as a finite
set, and callbacks as identifiers tagged with whether the call raises.
-/

namespace MiHome

/-- The `GestureType` enum of the source. -/
inductive GestureType where
  | none
  | fist
  | open_palm
  | peace
  | thumbs_up
  | pointing_up
  | three_fingers
  | two_fingers
  | one_finger
deriving DecidableEq, Repr

/-- The `.value` string of each enum member, as declared in the source. -/
def GestureType.value : GestureType → String
  | GestureType.none => "none"
  | GestureType.fist => "fist"
  | GestureType.open_palm => "open_palm"
  | GestureType.peace => "peace"
  | GestureType.thumbs_up => "thumbs_up"
  | GestureType.pointing_up => "pointing_up"
  | GestureType.three_fingers => "three_fingers"
  | GestureType.two_fingers => "two_fingers"
  | GestureType.one_finger => "one_finger"

/-- The 5-element finger-extension vector `[thumb, index, middle, ring, pinky]`
returned by `MediaPipeHandDetector.get_finger_positions`. -/
structure FingerVector where
  thumb : Bool
  index : Bool
  middle : Bool
  ring : Bool
  pinky : Bool
deriving DecidableEq, Repr

/-- `sum(fingers)`: the number of extended fingers. -/
def FingerVector.count (f : FingerVector) : Nat :=
  (if f.thumb then 1 else 0) + (if f.index then 1 else 0) +
    (if f.middle then 1 else 0) + (if f.ring then 1 else 0) +
    (if f.pinky then 1 else 0)

/-- `GestureClassifier.classify_gesture`, branch for branch.  The source
first computes `fingers_up = sum(fingers)` and then dispatches on the count
and the individual finger flags. -/
def classify_gesture (f : FingerVector) : GestureType :=
  let fingersUp := f.count
  if fingersUp = 0 then GestureType.fist
  else if fingersUp = 5 then GestureType.open_palm
  else if fingersUp = 1 then
    if f.index then GestureType.pointing_up
    else if f.thumb then GestureType.thumbs_up
    else GestureType.one_finger
  else if fingersUp = 2 then
    if f.index && f.middle then GestureType.peace
    else GestureType.two_fingers
  else if fingersUp = 3 then GestureType.three_fingers
  else if fingersUp = 4 then GestureType.none
  else GestureType.none

/-- The `GestureCommand` dataclass of the source. -/
structure GestureCommand where
  gesture_type : GestureType
  action : String
  description : String
  hand_type : String := "both"
deriving DecidableEq, Repr

/-- `GestureController.gesture_commands`: the generic (both-hands) command
table, as a partial map from gesture labels to commands. -/
def gesture_commands : GestureType → Option GestureCommand
  | GestureType.fist =>
      some ⟨GestureType.fist, "close_all", "拳头 - 关闭所有设备", "both"⟩
  | GestureType.open_palm =>
      some ⟨GestureType.open_palm, "open_all", "张开手掌 - 打开所有设备", "both"⟩
  | GestureType.peace =>
      some ⟨GestureType.peace, "toggle_device", "V手势 - 切换设备状态", "both"⟩
  | GestureType.thumbs_up =>
      some ⟨GestureType.thumbs_up, "increase_brightness", "拇指向上 - 增加亮度", "both"⟩
  | GestureType.pointing_up =>
      some ⟨GestureType.pointing_up, "max_brightness", "食指向上 - 最大亮度", "both"⟩
  | _ => Option.none

/-- `GestureController.left_hand_commands`. -/
def left_hand_commands : GestureType → Option GestureCommand
  | GestureType.thumbs_up =>
      some ⟨GestureType.thumbs_up, "decrease_brightness", "左手拇指向上 - 降低亮度", "both"⟩
  | GestureType.pointing_up =>
      some ⟨GestureType.pointing_up, "min_brightness", "左手食指向上 - 最小亮度", "both"⟩
  | GestureType.three_fingers =>
      some ⟨GestureType.three_fingers, "decrease_color_temp", "左手三指 - 降低色温(暖光)", "both"⟩
  | GestureType.two_fingers =>
      some ⟨GestureType.two_fingers, "set_warm_color_temp", "左手两指 - 设置暖光色温", "both"⟩
  | _ => Option.none

/-- `GestureController.right_hand_commands`. -/
def right_hand_commands : GestureType → Option GestureCommand
  | GestureType.thumbs_up =>
      some ⟨GestureType.thumbs_up, "increase_brightness", "右手拇指向上 - 增加亮度", "both"⟩
  | GestureType.pointing_up =>
      some ⟨GestureType.pointing_up, "max_brightness", "右手食指向上 - 最大亮度", "both"⟩
  | GestureType.three_fingers =>
      some ⟨GestureType.three_fingers, "increase_color_temp", "右手三指 - 提高色温(冷光)", "both"⟩
  | GestureType.two_fingers =>
      some ⟨GestureType.two_fingers, "set_cool_color_temp", "右手两指 - 设置冷光色温", "both"⟩
  | _ => Option.none

/-- The command-resolution cascade at the top of
`GestureController._execute_gesture`: hand-specific table first (guarded by
the hand string), then the generic table, else no command. -/
def resolveCommand (gesture : GestureType) (hand_type : String) : Option GestureCommand :=
  if hand_type = "left" ∧ (left_hand_commands gesture).isSome then
    left_hand_commands gesture
  else if hand_type = "right" ∧ (right_hand_commands gesture).isSome then
    right_hand_commands gesture
  else
    gesture_commands gesture

/-- A registered callback, reduced to an identifier plus whether invoking it
raises an exception. -/
structure Callback where
  id : Nat
  raises : Bool
deriving DecidableEq, Repr

/-- The `gesture_callbacks` registry: a string-keyed map, modelled as an
association list consulted with `List.lookup`. -/
def CallbackRegistry := List (String × Callback)

/-- The callback lookup of `GestureController._execute_gesture`: after
resolving the command, the key `f"\x7bhand_type\x7d_\x7bgesture.value\x7d"`
is tried, then the command's `action`; the result is the callback that will
be invoked, or `none` when the trigger is dropped. -/
def findCallback (registry : CallbackRegistry) (gesture : GestureType)
    (hand_type : String) : Option Callback :=
  match resolveCommand gesture hand_type with
  | Option.none => Option.none
  | some command =>
    let gesture_key := hand_type ++ "_" ++ gesture.value
    match List.lookup gesture_key registry with
    | some cb => some cb
    | Option.none => List.lookup command.action registry

/-- The id of the callback `_execute_gesture` invokes, if any. -/
def executeGesture (registry : CallbackRegistry) (gesture : GestureType)
    (hand_type : String) : Option Nat :=
  (findCallback registry gesture hand_type).map Callback.id

/-- Invoking a callback outside any `try` block: a raising callback yields
an error value. -/
def invokeCallback (cb : Callback) : Except String Unit :=
  if cb.raises then Except.error "callback error" else Except.ok ()

/-- `GestureController._execute_gesture` with its exception handling: the
`try/except` around `callback()` turns any raised error into a logged,
swallowed one, and an unresolved command or missing callback falls through
silently, so the whole call is modelled in `Except` to show what escapes. -/
def executeGestureE (registry : CallbackRegistry) (gesture : GestureType)
    (hand_type : String) : Except String Unit :=
  match findCallback registry gesture hand_type with
  | Option.none => Except.ok ()
  | some cb =>
    match invokeCallback cb with
    | Except.ok _ => Except.ok ()
    | Except.error _ => Except.ok ()

/-- The mutable per-session fields of `GestureController` that the hold
logic reads and writes: `last_gesture`, `gesture_start_time` and the
`executed_gestures` set. -/
structure ControllerState where
  last_gesture : GestureType
  gesture_start_time : ℚ
  executed_gestures : Finset GestureType
deriving DecidableEq

/-- The state after `GestureController.__init__`. -/
def initState : ControllerState :=
  { last_gesture := GestureType.none, gesture_start_time := 0, executed_gestures := ∅ }

/-- `self.gesture_hold_duration = 2.0` from `GestureController.__init__`. -/
def gesture_hold_duration : ℚ := 2

/-- `GestureController._handle_gesture_logic`: one tick of the hold-tracker
state machine.  Returns the new state and, when the hold fired this tick,
the `(gesture, hand_type)` pair passed to `_execute_gesture`. -/
def handleGestureLogic (s : ControllerState) (gesture : GestureType)
    (hand_type : String) (current_time : ℚ) :
    ControllerState × Option (GestureType × String) :=
  if gesture ≠ GestureType.none ∧ (gesture_commands gesture).isSome then
    if gesture ≠ s.last_gesture then
      ({ last_gesture := gesture, gesture_start_time := current_time,
         executed_gestures :=
           if gesture ∈ s.executed_gestures then s.executed_gestures.erase gesture
           else s.executed_gestures }, Option.none)
    else if gesture_hold_duration ≤ current_time - s.gesture_start_time then
      if gesture ∉ s.executed_gestures then
        ({ s with executed_gestures := insert gesture s.executed_gestures },
         some (gesture, hand_type))
      else (s, Option.none)
    else (s, Option.none)
  else
    ({ s with last_gesture := GestureType.none }, Option.none)

/-- Feed a list of `(gesture, hand, time)` ticks through
`handleGestureLogic`, collecting the fired `(gesture, hand)` events in
order. -/
def runTicks (s : ControllerState) :
    List (GestureType × String × ℚ) → ControllerState × List (GestureType × String)
  | [] => (s, [])
  | (g, h, t) :: rest =>
    match handleGestureLogic s g h t with
    | (s1, ev) =>
      match runTicks s1 rest with
      | (s2, evs) => (s2, ev.toList ++ evs)

/-- One full tick including dispatch: `_handle_gesture_logic` followed, when
it fires, by the `_execute_gesture` call, whose (caught) outcome is
reported. -/
def controllerTick (registry : CallbackRegistry) (s : ControllerState)
    (gesture : GestureType) (hand_type : String) (current_time : ℚ) :
    ControllerState × Option (Except String Unit) :=
  match handleGestureLogic s gesture hand_type current_time with
  | (s1, some ev) => (s1, some (executeGestureE registry ev.1 ev.2))
  | (s1, Option.none) => (s1, Option.none)

/-- `"left" if hand_label == "Left" else "right"` from
`GestureController.process_frame`. -/
def handLabelToType (hand_label : String) : String :=
  if hand_label = "Left" then "left" else "right"

/-- The loop body of `GestureController.process_frame` over the detected
hands, threading the running `hand_type` (initially `"unknown"`): each hand
first overwrites `hand_type`, then its gesture is classified, and the first
non-NONE gesture breaks the loop. -/
def selectGestureGo : List (String × FingerVector) → String → GestureType × String
  | [], hand_type => (GestureType.none, hand_type)
  | (hand_label, fv) :: rest, _ =>
    let hand_type := handLabelToType hand_label
    let gesture := classify_gesture fv
    if gesture ≠ GestureType.none then (gesture, hand_type)
    else selectGestureGo rest hand_type

/-- The active `(current_gesture, hand_type)` pair a frame produces in
`GestureController.process_frame`, given the detector's ordered list of
`(handedness label, finger vector)` pairs. -/
def selectGesture (hands : List (String × FingerVector)) : GestureType × String :=
  selectGestureGo hands "unknown"

/-- The session fields touched by `GestureController.start`: the `running`
flag and the capture handle `cap` (`none` before any capture is created,
`some b` a capture object whose `isOpened()` is `b`). -/
structure SessionState where
  running : Bool
  cap : Option Bool
deriving DecidableEq, Repr

/-- `GestureController.start`, with the environment abstracted to whether
`cv2.VideoCapture(camera_index)` yields an opened capture.  Returns the
boolean result and the new session state. -/
def start (cameraOpens : Bool) (s : SessionState) : Bool × SessionState :=
  if s.running then (true, s)
  else
    let s1 : SessionState := { s with cap := some cameraOpens }
    if cameraOpens = false then (false, s1)
    else (true, { s1 with running := true })

/-! ### Basic lemmas about single hold-tracker ticks -/

/-- A gesture with no generic-table entry (in particular NONE itself) takes
the `else` branch: `last_gesture` is cleared, nothing else changes, no
event fires. -/
theorem handleGestureLogic_not_generic (s : ControllerState) (g : GestureType)
    (hand : String) (t : ℚ) (hg : gesture_commands g = Option.none) :
    handleGestureLogic s g hand t = ({ s with last_gesture := GestureType.none }, Option.none) := by
  simp [handleGestureLogic, hg]

/-- A generic-table gesture differing from the tracked one resets the
timer, retracks the label, clears the fired record for that label, and
fires nothing. -/
theorem handleGestureLogic_reset (s : ControllerState) (g : GestureType)
    (hand : String) (t : ℚ) (hg : g ≠ GestureType.none)
    (hc : (gesture_commands g).isSome) (hne : g ≠ s.last_gesture) :
    handleGestureLogic s g hand t =
      ({ last_gesture := g, gesture_start_time := t,
         executed_gestures := s.executed_gestures.erase g }, Option.none) := by
  by_cases hmem : g ∈ s.executed_gestures
  · simp [handleGestureLogic, hg, hc, hne, hmem]
  · simp [handleGestureLogic, hg, hc, hne, hmem, Finset.erase_eq_of_not_mem hmem]

/-- A tracked generic-table gesture held for less than the hold duration
changes nothing and fires nothing. -/
theorem handleGestureLogic_early (s : ControllerState) (g : GestureType)
    (hand : String) (t : ℚ) (hg : g ≠ GestureType.none)
    (hc : (gesture_commands g).isSome) (heq : g = s.last_gesture)
    (ht : t - s.gesture_start_time < gesture_hold_duration) :
    handleGestureLogic s g hand t = (s, Option.none) := by
  subst heq
  simp [handleGestureLogic, hg, hc, not_le.mpr ht]

/-- A tracked generic-table gesture held past the hold duration and not yet
fired fires once, recording it as executed. -/
theorem handleGestureLogic_fire (s : ControllerState) (g : GestureType)
    (hand : String) (t : ℚ) (hg : g ≠ GestureType.none)
    (hc : (gesture_commands g).isSome) (heq : g = s.last_gesture)
    (ht : gesture_hold_duration ≤ t - s.gesture_start_time)
    (hmem : g ∉ s.executed_gestures) :
    handleGestureLogic s g hand t =
      ({ s with executed_gestures := insert g s.executed_gestures }, some (g, hand)) := by
  subst heq
  simp [handleGestureLogic, hg, hc, ht, hmem]

/-- A tracked generic-table gesture that already fired stays silent no
matter how long it is held. -/
theorem handleGestureLogic_already_fired (s : ControllerState) (g : GestureType)
    (hand : String) (t : ℚ) (hg : g ≠ GestureType.none)
    (hc : (gesture_commands g).isSome) (heq : g = s.last_gesture)
    (hmem : g ∈ s.executed_gestures) :
    handleGestureLogic s g hand t = (s, Option.none) := by
  rcases lt_or_le (t - s.gesture_start_time) gesture_hold_duration with ht | ht
  · exact handleGestureLogic_early s g hand t hg hc heq ht
  · subst heq
    simp [handleGestureLogic, hg, hc, ht, hmem]

/-! ### Runs of identical ticks -/

/-- A run of ticks all observing an already-fired tracked gesture leaves
the state untouched and emits nothing. -/
theorem runTicks_const_already_fired (g : GestureType) (h : String) (t0 : ℚ)
    (E : Finset GestureType) (hg : g ≠ GestureType.none)
    (hc : (gesture_commands g).isSome) (hE : g ∈ E) :
    ∀ ts : List ℚ,
      runTicks ⟨g, t0, E⟩ (ts.map fun t => (g, h, t)) = (⟨g, t0, E⟩, []) := by
  intro ts
  induction ts with
  | nil => rfl
  | cons t rest ih =>
    simp only [List.map_cons, runTicks,
      handleGestureLogic_already_fired ⟨g, t0, E⟩ g h t hg hc rfl hE]
    simp [ih]

/-- A run of ticks all observing the tracked, not-yet-fired gesture emits
exactly one `(g, h)` event when some tick falls past the hold window. -/
theorem runTicks_const_fire (g : GestureType) (h : String) (t0 : ℚ)
    (E : Finset GestureType) (hg : g ≠ GestureType.none)
    (hc : (gesture_commands g).isSome) (hE : g ∉ E) :
    ∀ ts : List ℚ, (∃ t ∈ ts, gesture_hold_duration ≤ t - t0) →
      (runTicks ⟨g, t0, E⟩ (ts.map fun t => (g, h, t))).2 = [(g, h)] := by
  intro ts
  induction ts with
  | nil => rintro ⟨t, ht, -⟩; simp at ht
  | cons t rest ih =>
    intro hex
    rcases le_or_lt gesture_hold_duration (t - t0) with ht | ht
    · simp only [List.map_cons, runTicks,
        handleGestureLogic_fire ⟨g, t0, E⟩ g h t hg hc rfl ht hE]
      simp [runTicks_const_already_fired g h t0 (insert g E) hg hc
        (Finset.mem_insert_self g E) rest]
    · simp only [List.map_cons, runTicks,
        handleGestureLogic_early ⟨g, t0, E⟩ g h t hg hc rfl ht]
      rcases hex with ⟨u, hu, hu2⟩
      rcases List.mem_cons.mp hu with rfl | hu
      · exact absurd hu2 (not_le.mpr ht)
      · simpa using ih ⟨u, hu, hu2⟩

/-- A run of ticks all observing the tracked, not-yet-fired gesture inside
the hold window leaves the state untouched and emits nothing. -/
theorem runTicks_const_early (g : GestureType) (h : String) (t0 : ℚ)
    (E : Finset GestureType) (hg : g ≠ GestureType.none)
    (hc : (gesture_commands g).isSome) :
    ∀ ts : List ℚ, (∀ t ∈ ts, t - t0 < gesture_hold_duration) →
      runTicks ⟨g, t0, E⟩ (ts.map fun t => (g, h, t)) = (⟨g, t0, E⟩, []) := by
  intro ts
  induction ts with
  | nil => intro _; rfl
  | cons t rest ih =>
    intro hall
    simp only [List.map_cons, runTicks,
      handleGestureLogic_early ⟨g, t0, E⟩ g h t hg hc rfl (hall t (List.mem_cons_self t rest))]
    simp [ih fun u hu => hall u (List.mem_cons_of_mem t hu)]

/-- The caught dispatch call never lets an error escape: whatever the
registry and however the callback behaves, `_execute_gesture` returns
normally. -/
theorem executeGestureE_ok (registry : CallbackRegistry) (g : GestureType)
    (hand : String) : executeGestureE registry g hand = Except.ok () := by
  unfold executeGestureE
  cases findCallback registry g hand with
  | none => rfl
  | some cb =>
    show (match invokeCallback cb with
      | Except.ok _ => Except.ok ()
      | Except.error _ => Except.ok ()) = Except.ok ()
    cases invokeCallback cb <;> rfl

/-! ### Claim theorems -/

/-- Modelled from the spec's classification table (for comparison against
the source classifier): 0 extended gives FIST, 5 gives OPEN_PALM, exactly
index gives POINTING_UP, exactly thumb gives THUMBS_UP, any other single
finger gives ONE_FINGER, index+middle gives PEACE, any other two fingers
gives TWO_FINGERS, any three gives THREE_FINGERS, four give NONE. -/
def spec_classification_table (f : FingerVector) : GestureType :=
  if f.count = 0 then GestureType.fist
  else if f.count = 5 then GestureType.open_palm
  else if f.count = 1 ∧ f.index then GestureType.pointing_up
  else if f.count = 1 ∧ f.thumb then GestureType.thumbs_up
  else if f.count = 1 then GestureType.one_finger
  else if f.count = 2 ∧ f.index ∧ f.middle then GestureType.peace
  else if f.count = 2 then GestureType.two_fingers
  else if f.count = 3 then GestureType.three_fingers
  else GestureType.none

/-- C3: for every 5-element boolean finger vector, `classify_gesture` is a
total deterministic function returning exactly the label the claim's table
prescribes (0 extended FIST, 5 OPEN_PALM, exactly index POINTING_UP,
exactly thumb THUMBS_UP, other single finger ONE_FINGER, index+middle
PEACE, other pair TWO_FINGERS, any three THREE_FINGERS, any four NONE). -/
theorem classify_gesture_matches_table :
    ∀ f : FingerVector, classify_gesture f = spec_classification_table f := by
  rintro ⟨t, i, m, r, p⟩
  cases t <;> cases i <;> cases m <;> cases r <;> cases p <;> rfl

/-- C2: command resolution consults the hand-specific table first, then the
generic table, then yields no action (at most one command, as an `Option`);
with the configured tables OPEN_PALM resolves to "open_all" for both hands,
and a LEFT (resp. RIGHT) hand that completes a 2.0 s hold of THUMBS_UP
fires a trigger whose command resolves — and dispatches — to
"decrease_brightness" (resp. "increase_brightness"). -/
theorem command_resolution_precedence :
    (∀ g : GestureType, (left_hand_commands g).isSome →
        resolveCommand g "left" = left_hand_commands g) ∧
    (∀ g : GestureType, left_hand_commands g = Option.none →
        resolveCommand g "left" = gesture_commands g) ∧
    (∀ g : GestureType, (right_hand_commands g).isSome →
        resolveCommand g "right" = right_hand_commands g) ∧
    (∀ g : GestureType, right_hand_commands g = Option.none →
        resolveCommand g "right" = gesture_commands g) ∧
    (∀ (g : GestureType) (hand : String), hand ≠ "left" → hand ≠ "right" →
        resolveCommand g hand = gesture_commands g) ∧
    (resolveCommand GestureType.open_palm "left").map GestureCommand.action = some "open_all" ∧
    (resolveCommand GestureType.open_palm "right").map GestureCommand.action = some "open_all" ∧
    (runTicks initState [(GestureType.thumbs_up, "left", 0), (GestureType.thumbs_up, "left", 2)]).2
      = [(GestureType.thumbs_up, "left")] ∧
    (resolveCommand GestureType.thumbs_up "left").map GestureCommand.action
      = some "decrease_brightness" ∧
    executeGesture [("decrease_brightness", ⟨5, false⟩)] GestureType.thumbs_up "left" = some 5 ∧
    (runTicks initState [(GestureType.thumbs_up, "right", 0), (GestureType.thumbs_up, "right", 2)]).2
      = [(GestureType.thumbs_up, "right")] ∧
    (resolveCommand GestureType.thumbs_up "right").map GestureCommand.action
      = some "increase_brightness" ∧
    executeGesture [("increase_brightness", ⟨6, false⟩)] GestureType.thumbs_up "right" = some 6 := by
  refine ⟨fun g hs => ?_, fun g hn => ?_, fun g hs => ?_, fun g hn => ?_,
    fun g hand h1 h2 => ?_, rfl, rfl, ?_, rfl, rfl, ?_, rfl, rfl⟩
  · simp [resolveCommand, hs]
  · simp [resolveCommand, hn]
  · simp [resolveCommand, hs]
  · simp [resolveCommand, hn]
  · simp [resolveCommand, h1, h2]
  · simp [runTicks, handleGestureLogic, initState, gesture_hold_duration, gesture_commands]
  · simp [runTicks, handleGestureLogic, initState, gesture_hold_duration, gesture_commands]

/-- Witness for C2: the precedence theorem applied at the concrete pair
(PEACE, "unknown") — neither hand table applies, so the generic table
decides. -/
theorem command_resolution_precedence_witness :
    resolveCommand GestureType.peace "unknown" = gesture_commands GestureType.peace :=
  command_resolution_precedence.2.2.2.2.1 GestureType.peace "unknown"
    (by decide) (by decide)

/-- C1 (amended to gestures with a generic-table entry): starting from the
initial state, continuously observing such a gesture `g` on hand `h` with
every tick less than `gesture_hold_duration` after the first emits no
trigger, while a hold in which some tick lies at least
`gesture_hold_duration` after the first emits exactly one trigger carrying
`(g, h)`, no matter how many ticks occur. -/
theorem hold_debounce_single_trigger (g : GestureType) (h : String) (t0 : ℚ)
    (ts : List ℚ) (hg : g ≠ GestureType.none) (hc : (gesture_commands g).isSome) :
    ((∀ t ∈ ts, t - t0 < gesture_hold_duration) →
      (runTicks initState ((g, h, t0) :: ts.map fun t => (g, h, t))).2 = []) ∧
    ((∃ t ∈ ts, gesture_hold_duration ≤ t - t0) →
      (runTicks initState ((g, h, t0) :: ts.map fun t => (g, h, t))).2 = [(g, h)]) := by
  have hreset := handleGestureLogic_reset initState g h t0 hg hc hg
  have herase : (initState.executed_gestures.erase g) = (∅ : Finset GestureType) := by
    simp [initState]
  constructor
  · intro hall
    simp only [runTicks, hreset, herase]
    simp [runTicks_const_early g h t0 ∅ hg hc ts hall]
  · intro hex
    simp only [runTicks, hreset, herase]
    simp [runTicks_const_fire g h t0 ∅ hg hc (by simp) ts hex]

/-- Witness for C1: OPEN_PALM held on the right hand at times 0, 1 and 3
(span ≥ 2.0 s) fires exactly one trigger carrying the pair. -/
theorem hold_debounce_single_trigger_witness :
    (runTicks initState [(GestureType.open_palm, "right", 0),
        (GestureType.open_palm, "right", 1), (GestureType.open_palm, "right", 3)]).2
      = [(GestureType.open_palm, "right")] :=
  (hold_debounce_single_trigger GestureType.open_palm "right" 0 [1, 3]
      (by decide) (by decide)).2 ⟨3, by simp, by norm_num [gesture_hold_duration]⟩

/-- Counterexample to C1 as stated: TWO_FINGERS is a non-NONE gesture, yet
holding it from time 0 to time 3 (well past the 2.0 s hold duration) emits
no trigger at all, because the hold logic only tracks gestures with a
generic-table entry. -/
theorem hold_debounce_nongeneric_cex :
    GestureType.two_fingers ≠ GestureType.none ∧
    (gesture_hold_duration ≤ (3 : ℚ) - 0) ∧
    (runTicks initState [(GestureType.two_fingers, "left", 0),
        (GestureType.two_fingers, "left", 3)]).2 = [] := by
  refine ⟨by decide, by norm_num [gesture_hold_duration], ?_⟩
  simp [runTicks, handleGestureLogic, initState, gesture_commands]

/-- C4 (amended): when the observed gesture `g` differs from the tracked
one, a tick resets the hold state only if `g` has a generic-table entry
(currentGesture := g, holdStartTime := now, the fired record for `g`
cleared); otherwise (NONE or a gesture outside the generic table) only
`last_gesture` is cleared to NONE, the start time and executed set staying
put.  The hand side never influences the state transition, so switching
hands under the same label performs no reset. -/
theorem hold_reset_on_label_change (s : ControllerState) (g : GestureType)
    (hand₁ hand₂ : String) (t : ℚ) :
    ((g ≠ s.last_gesture → g ≠ GestureType.none → (gesture_commands g).isSome →
        (handleGestureLogic s g hand₁ t).1 =
          ⟨g, t, s.executed_gestures.erase g⟩ ∧
        g ∉ (handleGestureLogic s g hand₁ t).1.executed_gestures) ∧
     (g ≠ s.last_gesture → gesture_commands g = Option.none →
        (handleGestureLogic s g hand₁ t).1 = { s with last_gesture := GestureType.none })) ∧
    (handleGestureLogic s g hand₁ t).1 = (handleGestureLogic s g hand₂ t).1 := by
  refine ⟨⟨fun hne hg hc => ?_, fun _ hn => ?_⟩, ?_⟩
  · rw [handleGestureLogic_reset s g hand₁ t hg hc hne]
    exact ⟨rfl, Finset.not_mem_erase g s.executed_gestures⟩
  · rw [handleGestureLogic_not_generic s g hand₁ t hn]
  · unfold handleGestureLogic
    split
    · split
      · rfl
      · split
        · split
          · rfl
          · rfl
        · rfl
    · rfl

/-- Witness for C4: from the initial state, a tick observing FIST at time 3
retracks FIST, restarts the timer at 3 and leaves FIST unfired. -/
theorem hold_reset_on_label_change_witness :
    (handleGestureLogic initState GestureType.fist "left" 3).1 =
      ⟨GestureType.fist, 3, initState.executed_gestures.erase GestureType.fist⟩ ∧
    GestureType.fist ∉ (handleGestureLogic initState GestureType.fist "left" 3).1.executed_gestures :=
  (hold_reset_on_label_change initState GestureType.fist "left" "right" 3).1.1
    (by decide) (by decide) (by decide)

/-- Counterexample to C4 as stated: with FIST tracked since time 5, a tick
observing NONE at time 10 changes the label, but the start time stays 5
instead of becoming the current time 10 — the claimed full reset does not
happen on a change to NONE. -/
theorem hold_reset_none_keeps_time_cex :
    GestureType.none ≠ GestureType.fist ∧
    (handleGestureLogic ⟨GestureType.fist, 5, ∅⟩ GestureType.none "left" 10).1.gesture_start_time = 5 ∧
    (5 : ℚ) ≠ 10 := by
  refine ⟨by decide, ?_, by norm_num⟩
  simp [handleGestureLogic, gesture_commands]

/-- C5: from any state in which a generic-table gesture `g` is recorded as
fired, a tick observing NONE followed by a fresh hold of `g` spanning at
least the hold duration emits exactly one further trigger for `g` — the
round trip through NONE re-enables triggering. -/
theorem refire_after_none_roundtrip (s : ControllerState) (g : GestureType)
    (h hn : String) (u t0 : ℚ) (ts : List ℚ)
    (hg : g ≠ GestureType.none) (hc : (gesture_commands g).isSome)
    (_hfired : g ∈ s.executed_gestures)
    (hspan : ∃ t ∈ ts, gesture_hold_duration ≤ t - t0) :
    (runTicks s ((GestureType.none, hn, u) :: (g, h, t0) ::
        ts.map fun t => (g, h, t))).2 = [(g, h)] := by
  have h1 := handleGestureLogic_not_generic s GestureType.none hn u rfl
  have h2 := handleGestureLogic_reset { s with last_gesture := GestureType.none }
    g h t0 hg hc (by simpa using hg)
  simp only [runTicks, h1, h2]
  simp [runTicks_const_fire g h t0 (s.executed_gestures.erase g) hg hc
    (Finset.not_mem_erase g s.executed_gestures) ts hspan]

/-- Witness for C5: FIST already fired; observing NONE at time 5 and then
FIST at times 6 and 9 fires FIST a second time. -/
theorem refire_after_none_roundtrip_witness :
    (runTicks ⟨GestureType.fist, 0, {GestureType.fist}⟩
        [(GestureType.none, "left", 5), (GestureType.fist, "left", 6),
         (GestureType.fist, "left", 9)]).2 = [(GestureType.fist, "left")] :=
  refire_after_none_roundtrip ⟨GestureType.fist, 0, {GestureType.fist}⟩
    GestureType.fist "left" "left" 5 6 [9] (by decide) (by decide)
    (by decide) ⟨9, by simp, by norm_num [gesture_hold_duration]⟩

/-- The executed set after a tick is the old set, the old set with the
observed gesture erased, or — only for a generic-table gesture — the old
set with it inserted. -/
theorem handleGestureLogic_executed_cases (s : ControllerState) (g : GestureType)
    (hand : String) (t : ℚ) :
    (handleGestureLogic s g hand t).1.executed_gestures = s.executed_gestures ∨
    (handleGestureLogic s g hand t).1.executed_gestures = s.executed_gestures.erase g ∨
    ((handleGestureLogic s g hand t).1.executed_gestures = insert g s.executed_gestures ∧
      (gesture_commands g).isSome) := by
  unfold handleGestureLogic
  split
  · next h1 =>
    split
    · by_cases hmem : g ∈ s.executed_gestures <;> simp [hmem]
    · split
      · split
        · exact Or.inr (Or.inr ⟨rfl, h1.2⟩)
        · exact Or.inl rfl
      · exact Or.inl rfl
  · exact Or.inl rfl

/-- The only tick branch that emits an event is the firing one: it carries
exactly `(g, hand)`, inserts `g` into the executed set, and requires `g` to
be the tracked, not-yet-fired gesture with a generic-table entry. -/
theorem handleGestureLogic_event_cases (s : ControllerState) (g : GestureType)
    (hand : String) (t : ℚ) :
    (handleGestureLogic s g hand t).2 = Option.none ∨
    ((handleGestureLogic s g hand t).2 = some (g, hand) ∧
      (handleGestureLogic s g hand t).1 =
        { s with executed_gestures := insert g s.executed_gestures } ∧
      g = s.last_gesture ∧ g ∉ s.executed_gestures ∧ (gesture_commands g).isSome) := by
  unfold handleGestureLogic
  split
  · next h1 =>
    split
    · exact Or.inl rfl
    · next h2 =>
      split
      · split
        · next hmem =>
          exact Or.inr ⟨rfl, rfl, not_not.mp (fun h => h2 h), hmem, h1.2⟩
        · exact Or.inl rfl
      · exact Or.inl rfl
  · exact Or.inl rfl

/-- C9: the executed-gesture set only ever holds labels with a
generic-table entry — a tick preserves that invariant, a gesture with no
generic entry only clears the tracked label (never starting or advancing a
timer, never firing), and ONE_FINGER, TWO_FINGERS and THREE_FINGERS have no
generic entry, so they can never fire or dispatch, on either hand. -/
theorem executed_gestures_generic_only (s : ControllerState) (g : GestureType)
    (hand : String) (t : ℚ) :
    ((∀ x ∈ s.executed_gestures, (gesture_commands x).isSome) →
        ∀ x ∈ (handleGestureLogic s g hand t).1.executed_gestures,
          (gesture_commands x).isSome) ∧
    (gesture_commands g = Option.none →
        (handleGestureLogic s g hand t).1 = { s with last_gesture := GestureType.none } ∧
        (handleGestureLogic s g hand t).2 = Option.none) ∧
    (gesture_commands GestureType.one_finger = Option.none ∧
      gesture_commands GestureType.two_fingers = Option.none ∧
      gesture_commands GestureType.three_fingers = Option.none) := by
  refine ⟨fun hinv x hx => ?_, fun hn => ?_, rfl, rfl, rfl⟩
  · rcases handleGestureLogic_executed_cases s g hand t with hcase | hcase | ⟨hcase, hg⟩
    · exact hinv x (hcase ▸ hx)
    · exact hinv x (Finset.mem_of_mem_erase (hcase ▸ hx))
    · rw [hcase] at hx
      rcases Finset.mem_insert.mp hx with rfl | hx
      · exact hg
      · exact hinv x hx
  · rw [handleGestureLogic_not_generic s g hand t hn]
    exact ⟨rfl, rfl⟩

/-- Witness for C9: a TWO_FINGERS tick from the initial state only clears
the tracked label and fires nothing. -/
theorem executed_gestures_generic_only_witness :
    (handleGestureLogic initState GestureType.two_fingers "left" 0).1 =
      { initState with last_gesture := GestureType.none } ∧
    (handleGestureLogic initState GestureType.two_fingers "left" 0).2 = Option.none :=
  (executed_gestures_generic_only initState GestureType.two_fingers "left" 0).2.1 rfl

/-- C6 (amended): the frame loop picks the first detected hand whose
classified gesture is not NONE; when no detected hand qualifies the pair is
gesture NONE with the hand side of the *last* detected hand, and only with
zero detected hands is the side "unknown". -/
theorem frame_selects_first_qualifying :
    ∀ hands : List (String × FingerVector),
      selectGesture hands =
        match hands.find? (fun p => classify_gesture p.2 != GestureType.none) with
        | some p => (classify_gesture p.2, handLabelToType p.1)
        | Option.none =>
          (GestureType.none,
            match hands.getLast? with
            | some p => handLabelToType p.1
            | Option.none => "unknown") := by
  have go : ∀ (hands : List (String × FingerVector)) (acc : String),
      selectGestureGo hands acc =
        match hands.find? (fun p => classify_gesture p.2 != GestureType.none) with
        | some p => (classify_gesture p.2, handLabelToType p.1)
        | Option.none =>
          (GestureType.none,
            match hands.getLast? with
            | some p => handLabelToType p.1
            | Option.none => acc) := by
    intro hands
    induction hands with
    | nil => intro acc; rfl
    | cons hd rest ih =>
      intro acc
      obtain ⟨lbl, fv⟩ := hd
      by_cases hcl : classify_gesture fv = GestureType.none
      · rw [List.find?_cons_of_neg _ (by simp [hcl])]
        simp only [selectGestureGo, hcl]
        simp only [ne_eq, not_true_eq_false, if_neg, ite_false]
        rw [ih (handLabelToType lbl)]
        cases rest with
        | nil => rfl
        | cons hd2 rest2 =>
          rw [List.getLast?_cons_cons]
          rcases List.find? (fun p => classify_gesture p.2 != GestureType.none)
              (hd2 :: rest2) with - | q
          · rcases hgl : (hd2 :: rest2).getLast? with - | q2
            · simp [List.getLast?] at hgl
            · rfl
          · rfl
      · rw [List.find?_cons_of_pos _ (by simp [hcl])]
        simp [selectGestureGo, hcl]
  intro hands
  exact go hands "unknown"

/-- Counterexample to C6 as stated: one detected left hand whose four-finger
pattern classifies to NONE — no hand qualifies, yet the frame's pair is
(NONE, "left"), not (NONE, "unknown") as the claim requires. -/
theorem frame_unknown_hand_cex :
    classify_gesture ⟨false, true, true, true, true⟩ = GestureType.none ∧
    selectGesture [("Left", ⟨false, true, true, true, true⟩)] = (GestureType.none, "left") ∧
    ("left" : String) ≠ "unknown" := ⟨rfl, rfl, by decide⟩

/-- C7 (amended): the dispatcher first consults the registry under the
hand-qualified key built from the hand side and the *gesture label's*
string value, separated by an underscore; only when that key is absent does
it fall back to the key equal to the resolved command's action; when neither
is present the trigger is dropped and no error escapes. -/
theorem dispatch_lookup_order (registry : CallbackRegistry) (g : GestureType)
    (hand : String) (command : GestureCommand) (cb : Callback)
    (hres : resolveCommand g hand = some command) :
    (List.lookup (hand ++ "_" ++ g.value) registry = some cb →
        executeGesture registry g hand = some cb.id) ∧
    (List.lookup (hand ++ "_" ++ g.value) registry = Option.none →
        executeGesture registry g hand =
          (List.lookup command.action registry).map Callback.id) ∧
    (List.lookup (hand ++ "_" ++ g.value) registry = Option.none →
      List.lookup command.action registry = Option.none →
        executeGesture registry g hand = Option.none ∧
        executeGestureE registry g hand = Except.ok ()) := by
  refine ⟨fun hq => ?_, fun hq => ?_, fun hq ha => ?_⟩
  · simp [executeGesture, findCallback, hres, hq]
  · simp [executeGesture, findCallback, hres, hq]
  · constructor
    · simp [executeGesture, findCallback, hres, hq, ha]
    · exact executeGestureE_ok registry g hand

/-- Witness for C7: with only the hand-qualified key "left_thumbs_up"
registered, a left-hand THUMBS_UP trigger invokes that callback. -/
theorem dispatch_lookup_order_witness :
    executeGesture [("left_thumbs_up", ⟨7, false⟩)] GestureType.thumbs_up "left" = some 7 :=
  (dispatch_lookup_order [("left_thumbs_up", ⟨7, false⟩)] GestureType.thumbs_up "left"
      ⟨GestureType.thumbs_up, "decrease_brightness", "左手拇指向上 - 降低亮度", "both"⟩
      ⟨7, false⟩ rfl).1 rfl

/-- Modelled from the spec's dispatcher (section 4.4), for comparison: look
up the hand-qualified key side-dot-action first, then the unqualified key
equal to the action name. -/
def specDispatchLookup (registry : CallbackRegistry) (action hand_side : String) :
    Option Nat :=
  match List.lookup (hand_side ++ "." ++ action) registry with
  | some cb => some cb.id
  | Option.none => (List.lookup action registry).map Callback.id

/-- Counterexample to C7 as stated: a left-hand THUMBS_UP trigger resolves
to action "decrease_brightness"; the claim's lookup scheme would invoke a
callback registered under "left.decrease_brightness", but the code looks up
"left_thumbs_up" (hand + gesture value), finds nothing, falls back to
"decrease_brightness", finds nothing, and drops the trigger. -/
theorem dispatch_key_shape_cex :
    (resolveCommand GestureType.thumbs_up "left").map GestureCommand.action
      = some "decrease_brightness" ∧
    specDispatchLookup [("left.decrease_brightness", ⟨7, false⟩)]
      "decrease_brightness" "left" = some 7 ∧
    executeGesture [("left.decrease_brightness", ⟨7, false⟩)]
      GestureType.thumbs_up "left" = Option.none := ⟨rfl, rfl, rfl⟩

/-- C8: a raising callback's error is caught inside the dispatch step (the
observable outcome of every dispatch is success, so the frame loop
continues); a fired trigger records its gesture as executed no matter what
the registry holds, a missing callback likewise throws nothing, and once
the tracked gesture is recorded as executed no further dispatch attempt is
made for the same hold. -/
theorem callback_failure_isolated (registry : CallbackRegistry) (s : ControllerState)
    (g : GestureType) (hand : String) (t : ℚ) :
    ((controllerTick registry s g hand t).2 = Option.none ∨
      (controllerTick registry s g hand t).2 = some (Except.ok ())) ∧
    (∀ cb, findCallback registry g hand = some cb → cb.raises = true →
        invokeCallback cb = Except.error "callback error" ∧
        executeGestureE registry g hand = Except.ok ()) ∧
    (findCallback registry g hand = Option.none →
        executeGestureE registry g hand = Except.ok ()) ∧
    ((controllerTick registry s g hand t).2.isSome = true →
        g ∈ (controllerTick registry s g hand t).1.executed_gestures ∧
        (controllerTick registry s g hand t).1.last_gesture = g) ∧
    (s.last_gesture = g → g ∈ s.executed_gestures →
        (controllerTick registry s g hand t).2 = Option.none) := by
  refine ⟨?_, fun cb hcb hraises => ⟨by simp [invokeCallback, hraises], executeGestureE_ok registry g hand⟩,
    fun _ => executeGestureE_ok registry g hand, ?_, fun hlast hmem => ?_⟩
  · rcases handleGestureLogic_event_cases s g hand t with hev | ⟨hev, -⟩
    · left
      simp [controllerTick]
      rw [show handleGestureLogic s g hand t =
        ((handleGestureLogic s g hand t).1, Option.none) from Prod.ext rfl hev]
    · right
      rw [show controllerTick registry s g hand t =
        ((handleGestureLogic s g hand t).1, some (executeGestureE registry g hand)) from ?_]
      · rw [executeGestureE_ok]
      · unfold controllerTick
        rw [show handleGestureLogic s g hand t =
          ((handleGestureLogic s g hand t).1, some (g, hand)) from Prod.ext rfl hev]
  · intro hsome
    rcases handleGestureLogic_event_cases s g hand t with hev | ⟨hev, hst, hlast, -, -⟩
    · exfalso
      rw [show controllerTick registry s g hand t =
        ((handleGestureLogic s g hand t).1, Option.none) from ?_] at hsome
      · simp at hsome
      · unfold controllerTick
        rw [show handleGestureLogic s g hand t =
          ((handleGestureLogic s g hand t).1, Option.none) from Prod.ext rfl hev]
    · rw [show controllerTick registry s g hand t =
        ((handleGestureLogic s g hand t).1, some (executeGestureE registry g hand)) from ?_]
      · rw [hst]
        exact ⟨Finset.mem_insert_self g s.executed_gestures, hlast.symm⟩
      · unfold controllerTick
        rw [show handleGestureLogic s g hand t =
          ((handleGestureLogic s g hand t).1, some (g, hand)) from Prod.ext rfl hev]
  · by_cases h1 : g = GestureType.none
    · subst h1
      rw [show controllerTick registry s GestureType.none hand t =
        ({ s with last_gesture := GestureType.none }, Option.none) from ?_]
      unfold controllerTick
      rw [handleGestureLogic_not_generic s GestureType.none hand t rfl]
    · by_cases h2 : (gesture_commands g).isSome
      · rw [show controllerTick registry s g hand t = (s, Option.none) from ?_]
        unfold controllerTick
        rw [handleGestureLogic_already_fired s g hand t h1 h2 hlast.symm hmem]
      · rw [show controllerTick registry s g hand t =
          ({ s with last_gesture := GestureType.none }, Option.none) from ?_]
        unfold controllerTick
        rw [handleGestureLogic_not_generic s g hand t (Option.not_isSome_iff_eq_none.mp h2)]

/-- Witness for C8: with FIST already executed and tracked, a further FIST
tick at time 10 performs no dispatch attempt, whatever the registry. -/
theorem callback_failure_isolated_witness :
    (controllerTick [] ⟨GestureType.fist, 0, {GestureType.fist}⟩
        GestureType.fist "left" 10).2 = Option.none :=
  (callback_failure_isolated [] ⟨GestureType.fist, 0, {GestureType.fist}⟩
      GestureType.fist "left" 10).2.2.2.2 rfl (by decide)

/-- C10 (amended): `start` on a running controller returns True at once and
changes nothing; `start` when the camera cannot be opened returns False and
leaves `running` false, but it does overwrite the capture handle with the
unopened capture object. -/
theorem start_running_and_failure (s : SessionState) :
    (s.running = true → ∀ opens : Bool, start opens s = (true, s)) ∧
    (s.running = false →
        start false s = (false, { running := false, cap := some false })) := by
  obtain ⟨r, c⟩ := s
  constructor
  · rintro rfl opens
    simp [start]
  · rintro rfl
    simp [start]

/-- Witness for C10: starting an already-running session returns True and
leaves the session untouched. -/
theorem start_running_and_failure_witness :
    start true ⟨true, some true⟩ = (true, ⟨true, some true⟩) :=
  (start_running_and_failure ⟨true, some true⟩).1 rfl true

/-- Counterexample to C10 as stated: starting a fresh session (no capture
yet) with a camera that cannot be opened returns False with `running`
false, but the capture field now holds the unopened capture — the session
state is not unchanged. -/
theorem start_failure_changes_cap_cex :
    start false ⟨false, Option.none⟩ = (false, ⟨false, some false⟩) ∧
    SessionState.mk false (some false) ≠ ⟨false, Option.none⟩ := ⟨rfl, by decide⟩

end MiHome
